import Mathlib

set_option maxHeartbeats 2000000
set_option maxRecDepth 8000

/-!
Shallow embedding of the DALI master-side driver (src/dali.go) together with
theorems settling the frozen claims about it.

Machine integers of the source are modelled as `Nat` with explicit `% 256`
where `uint8` overflow matters; the `int64` search-window variables of the
commissioning routine only ever carry values in `[0, 0xFFFFFF]` (they start
there and every assignment is a midpoint of two members of the range), so
they are modelled as `Nat` and Go integer division of non-negative values
coincides with `Nat` division.  The serial port is out of scope for the
repository itself and is modelled as an oracle: a function answering each
backward-frame read with the 3-byte buffer the wire would carry.
-/

namespace Dali

/-! ## Protocol constants (src/dali.go lines 43-50) -/

def BROADCAST_DP : Nat := 0b11111110
def BROADCAST_C : Nat := 0b11111111
def ON_DP : Nat := 0b11111110
def OFF_DP : Nat := 0b00000000
def ON_C : Nat := 0b00000101
def OFF_C : Nat := 0b00000000
def QUERY_STATUS : Nat := 0b10010000
def RESET : Nat := 0b00100000

/-! ## Frame encoder (src/dali.go lines 120-174) -/

/-- `is_bit_set` from lines 120-123: `n & (1 << pos) > 0`.  The Go `pos` is a
signed `int`; it is only ever used inside the (dead) bit loop, where it would
be non-negative whenever the shift is evaluated, hence `pos.toNat`. -/
def is_bit_set (n : Nat) (pos : Int) : Bool :=
  0 < (n &&& (1 <<< pos.toNat))

/-- The inner bit-extraction loop of `create_dali_frame`
(lines 150-169): `for i := 7; i < 0; i++ { ... }`.  The loop is transcribed
verbatim, guard `i < 0` included; `fuel` only bounds the recursion and is
never exhausted on the calls the encoder makes (the guard is false at entry,
so the body is dead code).  Byte writes model `uint8` operations: `&^ mask`
is `&&& (255 ^^^ mask)` and masks are reduced `% 256`. -/
def frame_bit_loop (dali_convert : Nat) :
    Nat → List Nat → Nat → Int → Int → List Nat × Nat × Int
  | 0, msg, byte_frame, msg_cn, _ => (msg, byte_frame, msg_cn)
  | fuel + 1, msg, byte_frame, msg_cn, i =>
    if i < 0 then
      let bf_cn : Nat × Int :=
        if msg_cn < 0 then (byte_frame + 1, (7 : Int)) else (byte_frame, msg_cn)
      let byte_frame := bf_cn.1
      let msg_cn := bf_cn.2
      let next : List Nat × Int :=
        if is_bit_set dali_convert i then
          let msg := msg.set byte_frame
            ((msg.getD byte_frame 0) &&& (255 ^^^ ((1 <<< msg_cn.toNat) % 256)))
          let msg_cn := msg_cn - 1
          let msg := msg.set byte_frame
            ((msg.getD byte_frame 0) ||| ((1 <<< msg_cn.toNat) % 256))
          (msg, msg_cn - 1)
        else
          let msg := msg.set byte_frame
            ((msg.getD byte_frame 0) ||| ((1 <<< msg_cn.toNat) % 256))
          let msg_cn := msg_cn - 1
          let msg := msg.set byte_frame
            ((msg.getD byte_frame 0) &&& (255 ^^^ ((1 <<< msg_cn.toNat) % 256)))
          (msg, msg_cn - 1)
      frame_bit_loop dali_convert fuel next.1 byte_frame next.2 (i + 1)
    else (msg, byte_frame, msg_cn)

/-- `create_dali_frame` (lines 132-174): 5 zeroed bytes, start symbol
`msg[0] |= 0x40`, then the bit loop is run once for the address byte and once
for the command byte (the `j` loop of lines 144-170), with `byte_frame` and
`msg_cn` carried across the two runs and `i` re-initialised to 7 each time. -/
def create_dali_frame (dali_address dali_command : Nat) : List Nat :=
  let msg : List Nat := [0, 0, 0, 0, 0]
  let byte_frame : Nat := 0
  let msg := msg.set byte_frame ((msg.getD byte_frame 0) ||| 0x40)
  let msg_cn : Int := 5
  let r1 := frame_bit_loop dali_address 64 msg byte_frame msg_cn 7
  let r2 := frame_bit_loop dali_command 64 r1.1 r1.2.1 r1.2.2 7
  r2.1

/-- Modelled from the spec: section 4.1 describes the intended encoder output,
which the dead loop of the source never produces.  One start symbol (the
`01` pair the source plants at the top of byte 0) followed by the 8 address
bits and then the 8 command bits, MSB first, each logical bit expanded into
two physical bits: logical 1 as a high-to-low pair, logical 0 as a
low-to-high pair; the remaining bits of the 5-byte buffer stay 0. -/
def biphase_bits (b : Nat) : List Bool :=
  ((List.range 8).reverse).foldr
    (fun k acc => (if b.testBit k then [true, false] else [false, true]) ++ acc) []

/-- Packs a list of physical bits, MSB first, into one byte. -/
def byte_of_bits (l : List Bool) : Nat :=
  l.foldl (fun acc bit => 2 * acc + (if bit then 1 else 0)) 0

/-- Modelled from the spec: the frame the spec (section 4.1) says the encoder
should produce; compared against `create_dali_frame` for claim C2. -/
def create_dali_frame_spec (dali_address dali_command : Nat) : List Nat :=
  let bits := [false, true] ++ biphase_bits dali_address ++ biphase_bits dali_command
  let padded := bits ++ List.replicate (40 - bits.length) false
  (List.range 5).map (fun k => byte_of_bits ((padded.drop (8 * k)).take 8))

/-! ## Backward-frame classification (lines 255-257 and line 349) -/

/-- The response test of `Scan_addresses` (lines 255-257):
`single_response[0] ^ 0xff != 0 || single_response[1] ^ 0xff != 0 ||
single_response[2] ^ 0xff != 0`. -/
def scan_classify (rsp : Nat × Nat × Nat) : Bool :=
  rsp.1 ^^^ 0xFF != 0 || rsp.2.1 ^^^ 0xFF != 0 || rsp.2.2 ^^^ 0xFF != 0

/-- The response test of the commissioning compare step (line 349):
`rsp[0] ^ 0xff != 0 || rsp[1] ^ 0xff != 0 || rsp[2] ^ 0xff != 0`. -/
def compare_classify (rsp : Nat × Nat × Nat) : Bool :=
  rsp.1 ^^^ 0xFF != 0 || rsp.2.1 ^^^ 0xFF != 0 || rsp.2.2 ^^^ 0xFF != 0

/-! ## Claim theorems: frame codec and classification -/

/-- C9: for every (address, command) pair the bit-extraction loop body never
executes (its guard `i < 0` is false at entry `i = 7`), so `create_dali_frame`
returns the 5-byte frame with only the start symbol set: first byte `0x40`,
all data bits zero. -/
theorem create_dali_frame_only_start_symbol (a c : Nat) :
    create_dali_frame a c = [0x40, 0, 0, 0, 0] := rfl

/-- C2: the claim that the encoder biphase-encodes the 16 logical bits fails
on the code: at address `0xFF`, command `0x05` the source frame carries only
the start symbol, while the encoder the spec describes produces non-zero data
bits.  (The spec itself flags the dead loop, so this is a code bug, not a
spec error.) -/
theorem create_dali_frame_drops_data_bits :
    create_dali_frame 0xFF 0x05 = [0x40, 0, 0, 0, 0] ∧
    create_dali_frame_spec 0xFF 0x05 ≠ create_dali_frame 0xFF 0x05 := by
  constructor
  · rfl
  · decide

/-- C6: a 3-byte backward frame is classified `NoResponse` exactly when all
three bytes are the idle symbol `0xFF`, and `Responded` exactly when at least
one byte deviates; the scanner (lines 255-257) and the commissioning compare
step (line 349) apply the same test. -/
theorem classify_no_response_iff_all_idle (rsp : Nat × Nat × Nat) :
    scan_classify rsp = compare_classify rsp ∧
    (compare_classify rsp = false ↔ (rsp.1 = 0xFF ∧ rsp.2.1 = 0xFF ∧ rsp.2.2 = 0xFF)) ∧
    (compare_classify rsp = true ↔ ¬ (rsp.1 = 0xFF ∧ rsp.2.1 = 0xFF ∧ rsp.2.2 = 0xFF)) := by
  refine ⟨rfl, ?_, ?_⟩ <;>
    simp [compare_classify, Nat.xor_eq_zero] <;> tauto

/-! ## Transport fault behaviour (lines 185-223)

`log.Fatal` aborts the whole process, so a Go function that hits it never
returns to its caller.  `DriverOutcome` records this: `ret v` is a normal
return carrying the returned values, `fatalExit` is process termination. -/

inductive TransportErr where
  | timeout
  | writeErr
  | readErr
deriving DecidableEq

inductive DriverOutcome (α : Type) where
  | ret (val : α)
  | fatalExit
deriving DecidableEq

/-- `Ιssue_dali_request` (lines 185-201) as a function of the outcome of
`port.Write`: on a write error the source calls `log.Fatal(err)` (the
following `return err` is dead), otherwise it returns `nil`. -/
def Ιssue_dali_request (writeResult : Option TransportErr) :
    DriverOutcome (Option TransportErr) :=
  match writeResult with
  | some _ => .fatalExit
  | none => .ret none

/-- `Wait_dali_response` (lines 209-223) as a function of the outcome of
`port.Read`: on a read error (a timeout included) the source calls
`log.Fatal(err)`; otherwise it returns `(response, nil)`.  Note the only
`return` statement of the source is `return response, nil`. -/
def Wait_dali_response (readResult : Except TransportErr (List Nat)) :
    DriverOutcome (List Nat × Option TransportErr) :=
  match readResult with
  | .error _ => .fatalExit
  | .ok buf => .ret (buf, none)

/-- The error value a caller of `Wait_dali_response` observes (none when the
process was terminated instead of returning). -/
def returned_err : DriverOutcome (List Nat × Option TransportErr) → Option TransportErr
  | .ret v => v.2
  | .fatalExit => none

/-- The commissioner's escalation test `rsp_err != nil` (line 344) applied to
an outcome of `Wait_dali_response`; `false` when the process never got there. -/
def rsp_err_branch : DriverOutcome (List Nat × Option TransportErr) → Bool
  | .ret v => v.2.isSome
  | .fatalExit => false

/-- C8: the claimed propagation policy fails on the code: a read timeout and
a write fault both hit `log.Fatal`, i.e. the process is terminated instead of
the error being returned or the timeout being recovered as `NoResponse`. -/
theorem transport_fault_terminates_process :
    Wait_dali_response (Except.error TransportErr.timeout) = DriverOutcome.fatalExit ∧
    Ιssue_dali_request (some TransportErr.writeErr) = DriverOutcome.fatalExit :=
  ⟨rfl, rfl⟩

/-- C10: on every path on which `Wait_dali_response` returns, the returned
error is `nil` (a failing read aborts the process via `log.Fatal` instead),
so the commissioner's escalation branch testing `rsp_err != nil` (lines
343-346) is never taken. -/
theorem wait_response_error_always_nil (r : Except TransportErr (List Nat)) :
    returned_err (Wait_dali_response r) = none ∧
    rsp_err_branch (Wait_dali_response r) = false := by
  cases r <;> exact ⟨rfl, rfl⟩

/-! ## Address scanner (lines 232-277)

The port is modelled by the predicate `responds : Nat → Bool` telling, for
each probed short address, whether the 3-byte backward frame read after the
status query deviates from idle (a responding device pulls bits low, modelled
as the buffer `(0, 0, 0)`; silence is the idle buffer `(255, 255, 255)`). -/

/-- `address_byte = 1 + (device_short_add << 1)` (line 248), a `uint8`
computation. -/
def address_byte (s : Nat) : Nat := (1 + ((s <<< 1) % 256)) % 256

/-- The per-address body of the scan loop (lines 245-270), iterated over the
remaining candidate short addresses.  State: `count` is `short_addresses`,
`resp` is the `response` slice (created as `make([]uint8, 1)`, i.e. `[0]`),
`trace` is the list of `(address, command)` pairs issued so far. -/
def scan_loop (responds : Nat → Bool) :
    List Nat → Nat → List Nat → List (Nat × Nat) → Nat × List Nat × List (Nat × Nat)
  | [], count, resp, trace => (count, resp, trace)
  | s :: rest, count, resp, trace =>
    let ab := address_byte s
    let trace := trace ++ [(ab, 0xA1)]
    let rsp : Nat × Nat × Nat := if responds s then (0, 0, 0) else (255, 255, 255)
    if scan_classify rsp then
      scan_loop responds rest (count + 1) ((resp.set count ab) ++ [0])
        (trace ++ [(ab, ON_C), (ab, OFF_C)])
    else
      scan_loop responds rest count resp trace

/-- `Scan_addresses` (lines 232-277): broadcast off, probe short addresses
0..63 in order, broadcast on; returns the `response` slice and the trace of
issued commands. -/
def Scan_addresses (responds : Nat → Bool) : List Nat × List (Nat × Nat) :=
  let r := scan_loop responds (List.range 64) 0 [0] [(BROADCAST_C, OFF_C)]
  (r.2.1, r.2.2 ++ [(BROADCAST_C, ON_C)])

/-- The commands the scan loop issues for one candidate short address: the
status query, then, when the device responded, the on/off toggle. -/
def scan_probe_cmds (responds : Nat → Bool) (s : Nat) : List (Nat × Nat) :=
  (address_byte s, 0xA1) ::
    (if responds s then [(address_byte s, ON_C), (address_byte s, OFF_C)] else [])

/-- Concatenation of the per-address command traces. -/
def scan_probe_trace (responds : Nat → Bool) : List Nat → List (Nat × Nat)
  | [] => []
  | s :: rest => scan_probe_cmds responds s ++ scan_probe_trace responds rest

lemma set_append_last (stored : List Nat) (x y : Nat) :
    (stored ++ [x]).set stored.length y = stored ++ [y] := by
  induction stored with
  | nil => rfl
  | cons a l ih => simp [List.set, ih]

lemma scan_loop_spec (responds : Nat → Bool) :
    ∀ (l stored : List Nat) (trace : List (Nat × Nat)),
      scan_loop responds l stored.length (stored ++ [0]) trace =
        (stored.length + (l.filter responds).length,
         (stored ++ (l.filter responds).map address_byte) ++ [0],
         trace ++ scan_probe_trace responds l) := by
  intro l
  induction l with
  | nil => intro stored trace; simp [scan_loop, scan_probe_trace]
  | cons s rest ih =>
    intro stored trace
    by_cases hr : responds s
    · have hcl : scan_classify (0, 0, 0) = true := rfl
      simp only [scan_loop, hr, if_true, hcl, set_append_last]
      have hlen : stored.length + 1 = (stored ++ [address_byte s]).length := by simp
      rw [hlen, show (stored ++ [address_byte s]) ++ [0] =
            (stored ++ [address_byte s]) ++ [0] from rfl,
          ih (stored ++ [address_byte s])]
      simp [List.filter_cons, hr, scan_probe_trace, scan_probe_cmds, List.append_assoc]
      omega
    · have hcl : scan_classify (255, 255, 255) = false := rfl
      simp only [scan_loop, hr, if_false, Bool.false_eq_true, hcl]
      rw [ih stored]
      simp [List.filter_cons, hr, scan_probe_trace, scan_probe_cmds, List.append_assoc]

/-- C7 (amended): the scanner broadcasts off first, issues one status query
(command `0xA1`) to each of the 64 candidate short addresses 0..63 in
ascending order, toggles every responding address on then off, broadcasts on
last — but it returns the device-facing address bytes `1 + (s << 1)` of the
responders (in ascending order) followed by one stray trailing `0` entry, not
the set of short addresses themselves. -/
theorem scan_addresses_behavior (responds : Nat → Bool) :
    Scan_addresses responds =
      (((List.range 64).filter responds).map address_byte ++ [0],
       ([(BROADCAST_C, OFF_C)] ++ scan_probe_trace responds (List.range 64)) ++
         [(BROADCAST_C, ON_C)]) := by
  have h := scan_loop_spec responds (List.range 64) [] [(BROADCAST_C, OFF_C)]
  simp only [List.length_nil, List.nil_append] at h
  simp [Scan_addresses, h]

/-- C7 counterexample: on a bus where exactly short addresses 3 and 7 are
bound, `Scan_addresses` does not return `{3, 7}`: it returns `[7, 15, 0]`
(the address bytes plus the trailing zero), and 3 is not even an element. -/
theorem scan_addresses_not_short_address_set :
    (Scan_addresses (fun s => s == 3 || s == 7)).1 = [7, 15, 0] ∧
    ¬ (3 ∈ (Scan_addresses (fun s => s == 3 || s == 7)).1) := by
  constructor
  · decide
  · decide

/-! ## Commissioning binary search (lines 329-362)

State of the inner search: the window bounds `low_longadd`, `high_longadd`
and the current candidate `longadd`.  The port is modelled by a bus oracle
mapping the state at the compare step to the 3-byte backward frame read. -/

structure SearchState where
  low : Nat
  high : Nat
  longadd : Nat
deriving DecidableEq

/-- One iteration of the inner loop (lines 332-362): issue the three search
address bytes and compare (their trace is command-only, the state change is
below), read the response, classify it; `Responded` moves `low` up to the
candidate (line 352), `NoResponse` moves `high` down to it (line 356), and
the next candidate is the midpoint `(low + high) / 2` (line 360). -/
def search_iter (bus : SearchState → Nat × Nat × Nat) (s : SearchState) : SearchState :=
  let rsp := bus s
  let s' : SearchState :=
    if compare_classify rsp then { s with low := s.longadd } else { s with high := s.longadd }
  { s' with longadd := (s'.low + s'.high) / 2 }

/-- The inner loop `for high_longadd - low_longadd > 1` (line 332), with a
fuel bound on the number of iterations.  Any fuel of at least 24 is enough:
the window gap at least halves each iteration (see
`search_window_invariant`), starting from `0xFFFFFF`. -/
def search_loop (bus : SearchState → Nat × Nat × Nat) : Nat → SearchState → SearchState
  | 0, s => s
  | fuel + 1, s =>
    if 1 < s.high - s.low then search_loop bus fuel (search_iter bus s) else s

/-- The single-device bus of claim C1: a lone device at long address `T`
answers the compare exactly when `T` is at most the current candidate. -/
def busLE (T : Nat) : SearchState → Nat × Nat × Nat :=
  fun s => if T ≤ s.longadd then (0, 0, 0) else (255, 255, 255)

/-- A bus on which every compare gets an answer. -/
def bus_any : SearchState → Nat × Nat × Nat := fun _ => (0, 0, 0)

/-- A bus on which no compare ever gets an answer: every read is idle. -/
def bus_idle : SearchState → Nat × Nat × Nat := fun _ => (255, 255, 255)

lemma search_iter_respond (bus : SearchState → Nat × Nat × Nat) (s : SearchState)
    (h : compare_classify (bus s) = true) :
    search_iter bus s = ⟨s.longadd, s.high, (s.longadd + s.high) / 2⟩ := by
  simp [search_iter, h]

lemma search_iter_silent (bus : SearchState → Nat × Nat × Nat) (s : SearchState)
    (h : compare_classify (bus s) = false) :
    search_iter bus s = ⟨s.low, s.longadd, (s.low + s.longadd) / 2⟩ := by
  simp [search_iter, h]

/-- On the single-device bus with `T` below every candidate the search runs
exactly as on `bus_any`: with `high` pinned at the ceiling the candidates
only grow, so the device keeps answering. -/
lemma search_loop_busLE_responds (T : Nat) :
    ∀ fuel s, s.high = 0xFFFFFF → T ≤ s.longadd → s.longadd ≤ 0xFFFFFF →
      search_loop (busLE T) fuel s = search_loop bus_any fuel s := by
  intro fuel
  induction fuel with
  | zero => intro s _ _ _; rfl
  | succ n ih =>
    intro s hh hT hla
    have hbus : busLE T s = (0, 0, 0) := by simp [busLE, hT]
    have hcl : compare_classify (busLE T s) = true := by rw [hbus]; rfl
    show (if 1 < s.high - s.low then search_loop (busLE T) n (search_iter (busLE T) s) else s) =
      (if 1 < s.high - s.low then search_loop bus_any n (search_iter bus_any s) else s)
    by_cases hg : 1 < s.high - s.low
    · rw [if_pos hg, if_pos hg,
        search_iter_respond (busLE T) s hcl, search_iter_respond bus_any s (by unfold bus_any; rfl)]
      exact ih ⟨s.longadd, s.high, (s.longadd + s.high) / 2⟩ hh
        (by show T ≤ (s.longadd + s.high) / 2; omega)
        (by show (s.longadd + s.high) / 2 ≤ 0xFFFFFF; omega)
    · rw [if_neg hg, if_neg hg]

/-- On the single-device bus with `T` above every candidate the search runs
exactly as on `bus_idle`: with `low` pinned at 0 the candidates only shrink,
so the device never answers. -/
lemma search_loop_busLE_silent (T : Nat) :
    ∀ fuel s, s.low = 0 → s.longadd < T →
      search_loop (busLE T) fuel s = search_loop bus_idle fuel s := by
  intro fuel
  induction fuel with
  | zero => intro s _ _; rfl
  | succ n ih =>
    intro s hl hT
    have hbus : busLE T s = (255, 255, 255) := by
      simp only [busLE, if_neg (by omega : ¬ T ≤ s.longadd)]
    have hcl : compare_classify (busLE T s) = false := by rw [hbus]; rfl
    show (if 1 < s.high - s.low then search_loop (busLE T) n (search_iter (busLE T) s) else s) =
      (if 1 < s.high - s.low then search_loop bus_idle n (search_iter bus_idle s) else s)
    by_cases hg : 1 < s.high - s.low
    · rw [if_pos hg, if_pos hg,
        search_iter_silent (busLE T) s hcl, search_iter_silent bus_idle s (by unfold bus_idle; rfl)]
      exact ih ⟨s.low, s.longadd, (s.low + s.longadd) / 2⟩ hl
        (by show (s.low + s.longadd) / 2 < T; omega)
    · rw [if_neg hg, if_neg hg]

lemma search_loop_bus_any_eval :
    search_loop bus_any 24 ⟨0, 0xFFFFFF, 0x7FFFFF⟩ = ⟨0xFFFFFE, 0xFFFFFF, 0xFFFFFE⟩ := by
  decide

lemma search_loop_bus_idle_eval :
    search_loop bus_idle 24 ⟨0, 0xFFFFFF, 0x7FFFFF⟩ = ⟨0, 1, 0⟩ := by
  decide

/-- C1 counterexample: a single responding device at long address `T = 5`
(answering a compare exactly when `5 ≤` candidate).  The inner search, run
from the initial window of line 299-301, converges (`high - low = 1` within
24 iterations) but `low + 1 = 0xFFFFFF ≠ 5`: it does not converge to the
device address. -/
theorem search_misses_single_device_at_5 :
    (search_loop (busLE 5) 24 ⟨0, 0xFFFFFF, 0x7FFFFF⟩).high -
        (search_loop (busLE 5) 24 ⟨0, 0xFFFFFF, 0x7FFFFF⟩).low = 1 ∧
    (search_loop (busLE 5) 24 ⟨0, 0xFFFFFF, 0x7FFFFF⟩).low + 1 ≠ 5 := by
  constructor
  · decide
  · decide

/-- C1 (amended): with a single device at `T` answering a compare exactly
when its long address is at most the candidate, the inner loop moves `low`
up to the candidate on `Responded`, `high` down on `NoResponse`, recomputes
the midpoint, and does terminate within 24 iterations — but, the low/high
moves being inverted relative to that response semantics, it converges to
the window `(0xFFFFFE, 0xFFFFFF)` whenever `T ≤ 0x7FFFFF` and to `(0, 1)`
whenever `T > 0x7FFFFF`, so `low + 1 = T` holds for no target `T`. -/
theorem search_actual_convergence (T : Nat) (hT : T ≤ 0xFFFFFF) :
    (search_loop (busLE T) 24 ⟨0, 0xFFFFFF, 0x7FFFFF⟩).high -
        (search_loop (busLE T) 24 ⟨0, 0xFFFFFF, 0x7FFFFF⟩).low = 1 ∧
    (search_loop (busLE T) 24 ⟨0, 0xFFFFFF, 0x7FFFFF⟩).low + 1 ≠ T ∧
    (T ≤ 0x7FFFFF →
      search_loop (busLE T) 24 ⟨0, 0xFFFFFF, 0x7FFFFF⟩ = ⟨0xFFFFFE, 0xFFFFFF, 0xFFFFFE⟩) ∧
    (0x7FFFFF < T →
      search_loop (busLE T) 24 ⟨0, 0xFFFFFF, 0x7FFFFF⟩ = ⟨0, 1, 0⟩) := by
  by_cases hc : T ≤ 0x7FFFFF
  · have he : search_loop (busLE T) 24 ⟨0, 0xFFFFFF, 0x7FFFFF⟩ =
        ⟨0xFFFFFE, 0xFFFFFF, 0xFFFFFE⟩ := by
      rw [search_loop_busLE_responds T 24 ⟨0, 0xFFFFFF, 0x7FFFFF⟩ rfl hc (by norm_num)]
      exact search_loop_bus_any_eval
    rw [he]
    exact ⟨rfl, by simp; omega, fun _ => rfl, fun h => absurd h (by omega)⟩
  · have he : search_loop (busLE T) 24 ⟨0, 0xFFFFFF, 0x7FFFFF⟩ = ⟨0, 1, 0⟩ := by
      rw [search_loop_busLE_silent T 24 ⟨0, 0xFFFFFF, 0x7FFFFF⟩ rfl
        (by show (0x7FFFFF : Nat) < T; omega)]
      exact search_loop_bus_idle_eval
    rw [he]
    exact ⟨rfl, by simp; omega, fun h => absurd h hc, fun _ => rfl⟩

/-- Witness for `search_actual_convergence` at `T = 3`. -/
theorem search_actual_convergence_witness :
    (search_loop (busLE 3) 24 ⟨0, 0xFFFFFF, 0x7FFFFF⟩).high -
        (search_loop (busLE 3) 24 ⟨0, 0xFFFFFF, 0x7FFFFF⟩).low = 1 ∧
    (search_loop (busLE 3) 24 ⟨0, 0xFFFFFF, 0x7FFFFF⟩).low + 1 ≠ 3 ∧
    (3 ≤ 0x7FFFFF →
      search_loop (busLE 3) 24 ⟨0, 0xFFFFFF, 0x7FFFFF⟩ = ⟨0xFFFFFE, 0xFFFFFF, 0xFFFFFE⟩) ∧
    (0x7FFFFF < 3 →
      search_loop (busLE 3) 24 ⟨0, 0xFFFFFF, 0x7FFFFF⟩ = ⟨0, 1, 0⟩) :=
  search_actual_convergence 3 (by norm_num)

lemma search_iter_window (bus : SearchState → Nat × Nat × Nat) (s : SearchState)
    (hg : 1 < s.high - s.low) (h2 : s.high ≤ 0xFFFFFF)
    (h3 : s.longadd = (s.low + s.high) / 2) :
    (search_iter bus s).low < (search_iter bus s).high ∧
    (search_iter bus s).high ≤ 0xFFFFFF ∧
    (search_iter bus s).longadd =
      ((search_iter bus s).low + (search_iter bus s).high) / 2 ∧
    (search_iter bus s).high - (search_iter bus s).low < s.high - s.low := by
  cases hcl : compare_classify (bus s)
  · rw [search_iter_silent bus s hcl]
    refine ⟨by simp; omega, by simp; omega, rfl, by simp; omega⟩
  · rw [search_iter_respond bus s hcl]
    refine ⟨by simp; omega, by simp; omega, rfl, by simp; omega⟩

/-- C5: along the inner search loop the window invariant holds: whatever the
bus answers, `low < high` is preserved with `high` within `[0, 0xFFFFFF]`
and the candidate at the midpoint, and each executed iteration strictly
shrinks `high - low`; since `low < high` keeps the gap at least 1 and the
loop runs only while the gap exceeds 1, the loop can only stop with
`high - low = 1` (fuel permitting). -/
theorem search_window_invariant (bus : SearchState → Nat × Nat × Nat)
    (fuel : Nat) (s : SearchState)
    (h1 : s.low < s.high) (h2 : s.high ≤ 0xFFFFFF)
    (h3 : s.longadd = (s.low + s.high) / 2) :
    ((search_loop bus fuel s).low < (search_loop bus fuel s).high ∧
     (search_loop bus fuel s).high ≤ 0xFFFFFF ∧
     (search_loop bus fuel s).longadd =
       ((search_loop bus fuel s).low + (search_loop bus fuel s).high) / 2 ∧
     1 ≤ (search_loop bus fuel s).high - (search_loop bus fuel s).low) ∧
    (1 < s.high - s.low →
      (search_iter bus s).high - (search_iter bus s).low < s.high - s.low) := by
  constructor
  · induction fuel generalizing s with
    | zero => exact ⟨h1, h2, h3, by show 1 ≤ s.high - s.low; omega⟩
    | succ n ih =>
      show _ ∧ _ ∧ _ ∧ _
      by_cases hg : 1 < s.high - s.low
      · have hw := search_iter_window bus s hg h2 h3
        have hrec := ih (search_iter bus s) hw.1 hw.2.1 hw.2.2.1
        simpa [search_loop, if_pos hg] using hrec
      · simpa [search_loop, if_neg hg] using ⟨h1, h2, h3, by omega⟩
  · intro hg
    exact (search_iter_window bus s hg h2 h3).2.2.2

/-- Witness for `search_window_invariant` at the initial window of lines
299-301 on the all-idle bus. -/
theorem search_window_invariant_witness :
    ((search_loop bus_idle 24 ⟨0, 0xFFFFFF, 0x7FFFFF⟩).low <
       (search_loop bus_idle 24 ⟨0, 0xFFFFFF, 0x7FFFFF⟩).high ∧
     (search_loop bus_idle 24 ⟨0, 0xFFFFFF, 0x7FFFFF⟩).high ≤ 0xFFFFFF ∧
     (search_loop bus_idle 24 ⟨0, 0xFFFFFF, 0x7FFFFF⟩).longadd =
       ((search_loop bus_idle 24 ⟨0, 0xFFFFFF, 0x7FFFFF⟩).low +
         (search_loop bus_idle 24 ⟨0, 0xFFFFFF, 0x7FFFFF⟩).high) / 2 ∧
     1 ≤ (search_loop bus_idle 24 ⟨0, 0xFFFFFF, 0x7FFFFF⟩).high -
       (search_loop bus_idle 24 ⟨0, 0xFFFFFF, 0x7FFFFF⟩).low) ∧
    (1 < (0xFFFFFF : Nat) - 0 →
      (search_iter bus_idle ⟨0, 0xFFFFFF, 0x7FFFFF⟩).high -
        (search_iter bus_idle ⟨0, 0xFFFFFF, 0x7FFFFF⟩).low < 0xFFFFFF - 0) :=
  search_window_invariant bus_idle 24 ⟨0, 0xFFFFFF, 0x7FFFFF⟩
    (by norm_num) (by norm_num) (by norm_num)

/-! ## Commissioner (lines 297-399)

`Ιnitialize_dali` broadcasts reset/off, enters addressing mode, randomizes,
then runs the discovery loop.  The bus is the same compare oracle used for
the inner search; writes succeed (transport faults are the subject of C8/C10
and hit `log.Fatal` before any value is returned). -/

structure DaliState where
  low : Nat
  high : Nat
  longadd : Nat
  short_add : Nat
  assigned : List Nat
deriving DecidableEq

/-- The short-address assignment block (lines 364-390): when the inner
search did not leave `high` at the ceiling, the device isolated at
`longadd + 1` is re-selected and programmed with the `uint8` address token
`1 + (short_add << 1)` (line 374), `short_add` is incremented after the
assignment, `high` is reloaded to the ceiling and the candidate recentred
(lines 385-387); otherwise nothing changes. -/
def assign_block (st : DaliState) : DaliState :=
  if st.high ≠ 0xFFFFFF then
    { low := st.low, high := 0xFFFFFF,
      longadd := (st.low + 0xFFFFFF) / 2,
      short_add := (st.short_add + 1) % 256,
      assigned := st.assigned ++ [address_byte st.short_add] }
  else st

/-- The discovery loop `for longadd <= 0xFFFFFF - 2 && short_add <= 64`
(line 329): run the inner search (fuel 30 covers its at most 24 iterations),
then the assignment block.  Outer fuel 70 covers the at most 66 guard
evaluations any run can make before `short_add` exceeds 64. -/
def dali_outer (bus : SearchState → Nat × Nat × Nat) : Nat → DaliState → DaliState
  | 0, st => st
  | fuel + 1, st =>
    if st.longadd ≤ 0xFFFFFF - 2 ∧ st.short_add ≤ 64 then
      let s := search_loop bus 30 ⟨st.low, st.high, st.longadd⟩
      dali_outer bus fuel
        (assign_block { st with low := s.low, high := s.high, longadd := s.longadd })
    else st

structure DaliResult where
  final : DaliState
  err : Option TransportErr
  tail_cmds : List (Nat × Nat)
deriving DecidableEq

/-- `Ιnitialize_dali` (lines 297-399): the search-window variables start at
`low = 0`, `high = 0xFFFFFF`, `longadd = (low + high) / 2` (lines 299-301),
the discovery loop runs, and the routine unconditionally ends by issuing the
terminate command `0b10100001` and the broadcast-on (lines 393-396),
returning the error of the last issue — `nil`, writes succeeding. -/
def Ιnitialize_dali (bus : SearchState → Nat × Nat × Nat) : DaliResult :=
  let st := dali_outer bus 70 ⟨0, 0xFFFFFF, (0 + 0xFFFFFF) / 2, 0, []⟩
  { final := st, err := none,
    tail_cmds := [(0b10100001, 0b00000000), (BROADCAST_C, ON_C)] }

/-- C3: the zero-devices scenario fails on the code.  When every backward
frame read is entirely idle, the first pass of the search bottoms out at the
window `(0, 1)` — `high = 1`, not the claimed sentinel ceiling `0xFFFFFF` —
so the sentinel test of line 364 passes and the run programs a phantom short
address on every pass: 65 tokens get assigned instead of zero.  The
terminating broadcast-on is issued and no error is returned, as claimed. -/
theorem commissioning_all_idle_run :
    (search_loop bus_idle 30 ⟨0, 0xFFFFFF, 0x7FFFFF⟩).high = 1 ∧
    (Ιnitialize_dali bus_idle).final.assigned.length = 65 ∧
    (Ιnitialize_dali bus_idle).err = none ∧
    (Ιnitialize_dali bus_idle).tail_cmds = [(0b10100001, 0b00000000), (0xFF, 0x05)] := by
  refine ⟨by decide, by decide, rfl, rfl⟩

/-- C4: the token formula holds but the 64 bound fails on the code.  On the
all-idle bus the discovery loop runs its assignment block for
`short_add = 0, 1, ..., 64` (the guard `short_add <= 64` of line 329 admits
64), programming 65 tokens, the k-th being `1 + (k << 1) = 1 + 2k`; so one
run can assign 65 short addresses, one more than the claimed maximum. -/
theorem commissioning_assigns_65_tokens :
    (Ιnitialize_dali bus_idle).final.assigned =
      (List.range 65).map (fun k => 1 + 2 * k) ∧
    64 < (Ιnitialize_dali bus_idle).final.assigned.length ∧
    (Ιnitialize_dali bus_idle).final.short_add = 65 := by
  refine ⟨by decide, by decide, by decide⟩

end Dali
